import Mathlib

/-!
Shallow embedding of the cec-sync daemon (Rust) for checking its
natural-language specification.  Each definition is translated from the
named place in the repository's source; theorems about the claims follow
the definitions.
-/

namespace CecSync

/-- A byte, the unit of the postcard wire encoding and of the u8 fields. -/
abbrev Byte := Fin 256

/-! ## Data model (src/meta_command.rs lines 14-102, src/backend/mod.rs) -/

/-- enum Active (meta_command.rs lines 36-45). -/
inductive Active where
  | Set (cooperative : Bool)
  | Unset
deriving DecidableEq, Repr

/-- enum Power (meta_command.rs lines 48-57). -/
inductive Power where
  | On
  | Off (cooperative : Bool)
deriving DecidableEq, Repr

/-- enum Volume (meta_command.rs lines 60-75); steps and volume are u8. -/
inductive Volume where
  | Up (steps : Byte)
  | Down (steps : Byte)
  | Set (volume : Byte)
deriving DecidableEq, Repr

/-- enum Mute (meta_command.rs lines 78-87). -/
inductive Mute where
  | Toggle
  | On
  | Off
deriving DecidableEq, Repr

/-- enum DeckInfo (meta_command.rs lines 92-96); the derived Ord follows
declaration order, so Play < Still < Stop. -/
inductive DeckInfo where
  | Play
  | Still
  | Stop
deriving DecidableEq, Repr

/-- enum MetaCommand (meta_command.rs lines 15-33); the Mute variant carries
an Option of the Mute subcommand. -/
inductive MetaCommand where
  | Active (a : Active)
  | Power (p : Power)
  | Volume (v : Volume)
  | Mute (command : Option Mute)
  | DeckInfo (d : DeckInfo)
deriving DecidableEq, Repr

/-- enum Request (backend module): the port identifier of a device is a
C-string path, modelled as a Lean String. -/
inductive Request where
  | ResetDevice (port : Option String)
  | RemoveDevice (port : String)
  | MetaCommand (command : MetaCommand)
deriving DecidableEq, Repr

/-- Discriminant position of each DeckInfo variant, mirroring the Rust
derived Ord on the fieldless enum (Play = 0, Still = 1, Stop = 2). -/
def DeckInfo.toNat : DeckInfo → Nat
  | .Play => 0
  | .Still => 1
  | .Stop => 2

/-- std::cmp::min on DeckInfo values under the derived Ord. -/
def DeckInfo.min (a b : DeckInfo) : DeckInfo :=
  if a.toNat ≤ b.toNat then a else b

/-! ## Postcard encoding of MetaCommand (derive Serialize/Deserialize/MaxSize)

postcard encodes an enum as a varint(u32) discriminant followed by the
variant's fields; a u8 as one byte; a bool as one byte 0 or 1 (anything
else is a decode error); an Option as one byte 0 (None) or 1 (Some)
followed by the value.  All discriminants here are below 128 and occupy
one byte. -/

/-- postcard encoding of a bool field. -/
def boolByte (b : Bool) : Byte := if b then 1 else 0

/-- postcard serialization of Active. -/
def Active.serialize : Active → List Byte
  | .Set c => [0, boolByte c]
  | .Unset => [1]

/-- postcard serialization of Power. -/
def Power.serialize : Power → List Byte
  | .On => [0]
  | .Off c => [1, boolByte c]

/-- postcard serialization of Volume. -/
def Volume.serialize : Volume → List Byte
  | .Up s => [0, s]
  | .Down s => [1, s]
  | .Set v => [2, v]

/-- postcard serialization of Mute. -/
def Mute.serialize : Mute → List Byte
  | .Toggle => [0]
  | .On => [1]
  | .Off => [2]

/-- postcard serialization of DeckInfo. -/
def DeckInfo.serialize : DeckInfo → List Byte
  | .Play => [0]
  | .Still => [1]
  | .Stop => [2]

/-- postcard serialization of MetaCommand: discriminant byte, then the
variant payload (the Mute payload is an Option of the subcommand). -/
def MetaCommand.serialize : MetaCommand → List Byte
  | .Active a => 0 :: a.serialize
  | .Power p => 1 :: p.serialize
  | .Volume v => 2 :: v.serialize
  | .Mute none => [3, 0]
  | .Mute (some m) => 3 :: 1 :: m.serialize
  | .DeckInfo d => 4 :: d.serialize

/-- MetaCommand::POSTCARD_MAX_SIZE as computed by the MaxSize derive: one
byte for the varint discriminant (every enum here has fewer than 128
variants) plus the largest variant payload (Active/Power: 1 + 1,
Volume: 1 + 1, Mute: 1 + Option overhead 1 + 1... the largest total
payload is 2), giving 3. -/
def POSTCARD_MAX_SIZE : Nat := 3

/-- Read one byte from the front of the input. -/
def readByte : List Byte → Option (Byte × List Byte)
  | [] => none
  | b :: r => some (b, r)

/-- Varint(u32) reader: up to five bytes, seven payload bits per byte,
low bits first; a continuation bit past the budget is a decode error. -/
def readVarint32Aux : Nat → Nat → Nat → List Byte → Option (Nat × List Byte)
  | 0, _, _, _ => none
  | _ + 1, _, _, [] => none
  | budget + 1, shift, acc, b :: r =>
    if (b : Nat) < 128 then some (acc + (b : Nat) * 2 ^ shift, r)
    else readVarint32Aux budget (shift + 7) (acc + ((b : Nat) - 128) * 2 ^ shift) r

/-- Varint(u32) reader entry point (postcard discriminants and lengths). -/
def readVarint32 : List Byte → Option (Nat × List Byte) :=
  readVarint32Aux 5 0 0

/-- postcard decoding of a bool byte: 0 or 1, anything else is an error. -/
def decodeBool (b : Byte) : Option Bool :=
  if (b : Nat) = 0 then some false
  else if (b : Nat) = 1 then some true
  else none

/-- postcard deserialization of Active from the front of the input. -/
def Active.deserialize (bs : List Byte) : Option (Active × List Byte) := do
  let (d, r) ← readVarint32 bs
  match d with
  | 0 => do
    let (b, r) ← readByte r
    let c ← decodeBool b
    pure (.Set c, r)
  | 1 => pure (.Unset, r)
  | _ => none

/-- postcard deserialization of Power from the front of the input. -/
def Power.deserialize (bs : List Byte) : Option (Power × List Byte) := do
  let (d, r) ← readVarint32 bs
  match d with
  | 0 => pure (.On, r)
  | 1 => do
    let (b, r) ← readByte r
    let c ← decodeBool b
    pure (.Off c, r)
  | _ => none

/-- postcard deserialization of Volume from the front of the input. -/
def Volume.deserialize (bs : List Byte) : Option (Volume × List Byte) := do
  let (d, r) ← readVarint32 bs
  match d with
  | 0 => do
    let (s, r) ← readByte r
    pure (.Up s, r)
  | 1 => do
    let (s, r) ← readByte r
    pure (.Down s, r)
  | 2 => do
    let (v, r) ← readByte r
    pure (.Set v, r)
  | _ => none

/-- postcard deserialization of Mute from the front of the input. -/
def Mute.deserialize (bs : List Byte) : Option (Mute × List Byte) := do
  let (d, r) ← readVarint32 bs
  match d with
  | 0 => pure (.Toggle, r)
  | 1 => pure (.On, r)
  | 2 => pure (.Off, r)
  | _ => none

/-- postcard deserialization of DeckInfo from the front of the input. -/
def DeckInfo.deserialize (bs : List Byte) : Option (DeckInfo × List Byte) := do
  let (d, r) ← readVarint32 bs
  match d with
  | 0 => pure (.Play, r)
  | 1 => pure (.Still, r)
  | 2 => pure (.Stop, r)
  | _ => none

/-- postcard deserialization of MetaCommand from the front of the input. -/
def MetaCommand.deserialize (bs : List Byte) : Option (MetaCommand × List Byte) := do
  let (d, r) ← readVarint32 bs
  match d with
  | 0 => do
    let (a, r) ← Active.deserialize r
    pure (.Active a, r)
  | 1 => do
    let (p, r) ← Power.deserialize r
    pure (.Power p, r)
  | 2 => do
    let (v, r) ← Volume.deserialize r
    pure (.Volume v, r)
  | 3 => do
    let (o, r) ← readByte r
    match (o : Nat) with
    | 0 => pure (.Mute none, r)
    | 1 => do
      let (m, r) ← Mute.deserialize r
      pure (.Mute (some m), r)
    | _ => none
  | 4 => do
    let (i, r) ← DeckInfo.deserialize r
    pure (.DeckInfo i, r)
  | _ => none

/-- postcard::from_bytes: deserialize from the front of the buffer and
ignore any unused trailing bytes. -/
def from_bytes (bs : List Byte) : Option MetaCommand :=
  (MetaCommand.deserialize bs).map Prod.fst

/-! ## Command translation (src/meta_command.rs lines 144-276)

The native CEC connection is modelled as an oracle: each native call a
translated function makes returns the response recorded for it in the
CecConn value.  A translated function returns its Result together with
the sequence of native calls it issued, in order. -/

/-- enum CecAudioStatusError (cec-rs): the audio-status primitives either
report an unknown audio status or a reserved status byte. -/
inductive CecAudioStatusError where
  | Unknown
  | Reserved (code : Byte)
deriving DecidableEq, Repr

/-- enum CecConnectionError (cec-rs), as matched in main.rs lines 279-285. -/
inductive CecConnectionError where
  | LibInitFailed
  | CallbackRegistrationFailed
  | NoAdapterFound
  | AdapterOpenFailed
  | TransmitFailed
deriving DecidableEq, Repr

/-- enum CecError (main.rs lines 277-292). -/
inductive CecError where
  | Connection (e : CecConnectionError)
  | AudioStatus (e : CecAudioStatusError)
deriving DecidableEq, Repr

/-- A CEC logical address (cec-rs CecLogicalAddress): Unknown (-1),
Unregistered/Broadcast (15), or one of the fifteen registered
addresses 0-14. -/
inductive CecLogicalAddress where
  | Unknown
  | Unregistered
  | Known (a : Fin 15)
deriving DecidableEq, Repr

/-- KnownAndRegisteredCecLogicalAddress::new (cec-rs): succeeds exactly on
the registered addresses 0-14. -/
def KnownAndRegisteredCecLogicalAddress.new : CecLogicalAddress → Option (Fin 15)
  | .Known a => some a
  | _ => none

/-- The native calls the command-translation layer can issue. -/
inductive NativeCall where
  | audioGetStatus
  | volumeUp
  | volumeDown
  | sendStandbyDevices
deriving DecidableEq, Repr

/-- Oracle for an open native CEC connection: the response each native
call returns.  audio_get_status is reduced to the .volume() u8 of the
returned status (libcec carries it in the low 7 bits). -/
structure CecConn where
  audio_get_status : Except CecAudioStatusError Byte
  volume_up_result : Except CecAudioStatusError Byte
  volume_down_result : Except CecAudioStatusError Byte
  get_active_source : CecLogicalAddress
  get_logical_addresses : List (Fin 15)
  send_standby_devices_result : Except CecConnectionError Unit

/-- The `for _ in 0..steps` loop shared by volume_up and volume_down
(meta_command.rs lines 190-212): each iteration issues one native call;
Ok and Err(Unknown) continue, any other error aborts the loop. -/
def volume_loop (result : Except CecAudioStatusError Byte) (call : NativeCall) :
    Nat → Except CecError Unit × List NativeCall
  | 0 => (.ok (), [])
  | n + 1 =>
    match result with
    | .ok _ =>
      let (r, cs) := volume_loop result call n
      (r, call :: cs)
    | .error .Unknown =>
      let (r, cs) := volume_loop result call n
      (r, call :: cs)
    | .error e => (.error (.AudioStatus e), [call])

/-- fn volume_up (meta_command.rs lines 190-200). -/
def volume_up (cec : CecConn) (steps : Byte) : Except CecError Unit × List NativeCall :=
  volume_loop cec.volume_up_result .volumeUp (steps : Nat)

/-- fn volume_down (meta_command.rs lines 202-212). -/
def volume_down (cec : CecConn) (steps : Byte) : Except CecError Unit × List NativeCall :=
  volume_loop cec.volume_down_result .volumeDown (steps : Nat)

/-- Rust `u8 as i8`: reinterpret the byte as a signed two's-complement
value in [-128, 127]. -/
def u8AsI8 (n : Byte) : Int :=
  if (n : Nat) < 128 then ((n : Nat) : Int) else ((n : Nat) : Int) - 256

/-- Wrapping i8 subtraction (`a - b` on i8 wraps modulo 256 into
[-128, 127] in release builds). -/
def i8Sub (a b : Int) : Int := (a - b + 128) % 256 - 128

/-- Rust `i8 as u8`: reinterpret the signed value as a byte. -/
def i8AsU8 (x : Int) : Byte :=
  ⟨(x % 256).toNat, by
    have h0 : (0 : Int) ≤ x % 256 := Int.emod_nonneg x (by decide)
    have h1 : x % 256 < 256 := Int.emod_lt_of_pos x (by decide)
    omega⟩

/-- fn volume_set (meta_command.rs lines 214-224): read the audio status,
compute `volume as i8 - status.volume() as i8`, and replay that i8 value
reinterpreted as a u8 step count upward when it is non-negative and
downward otherwise. -/
def volume_set (cec : CecConn) (volume : Byte) : Except CecError Unit × List NativeCall :=
  match cec.audio_get_status with
  | .error e => (.error (.AudioStatus e), [.audioGetStatus])
  | .ok sv =>
    let steps := i8Sub (u8AsI8 volume) (u8AsI8 sv)
    if 0 ≤ steps then
      let (r, cs) := volume_up cec (i8AsU8 steps)
      (r, .audioGetStatus :: cs)
    else
      let (r, cs) := volume_down cec (i8AsU8 steps)
      (r, .audioGetStatus :: cs)

/-- fn power_off (meta_command.rs lines 170-173): send_standby_devices to
the broadcast address. -/
def power_off (cec : CecConn) : Except CecError Unit × List NativeCall :=
  match cec.send_standby_devices_result with
  | .ok _ => (.ok (), [.sendStandbyDevices])
  | .error e => (.error (.Connection e), [.sendStandbyDevices])

/-- fn power_off_cooperative (meta_command.rs lines 175-188): if the
current active source is not a known registered address, return Ok
without any call; otherwise send standby only when the connection's own
logical addresses contain the active source. -/
def power_off_cooperative (cec : CecConn) : Except CecError Unit × List NativeCall :=
  match KnownAndRegisteredCecLogicalAddress.new cec.get_active_source with
  | none => (.ok (), [])
  | some active_source =>
    if active_source ∈ cec.get_logical_addresses then power_off cec
    else (.ok (), [])

/-! ## Events and the orchestrator's event-dispatch task (src/main.rs) -/

/-- cec-rs CecLogLevel as matched in main.rs lines 93-99.  The All value
is a callback filter mask and never arrives on a log message; the code
marks that arm unreachable, so it is left out of the model. -/
inductive CecLogLevel where
  | Error
  | Warning
  | Notice
  | Traffic
  | Debug
deriving DecidableEq, Repr

/-- cec-rs CecLogMessage, reduced to the fields main.rs reads. -/
structure CecLogMessage where
  level : CecLogLevel
  message : String
deriving DecidableEq, Repr

/-- A CEC opcode: only Standby (0x36) is ever inspected by this program
(systemd_logind proxy); every other opcode is collapsed into Other. -/
inductive CecOpcode where
  | Standby
  | Other (raw : Byte)
deriving DecidableEq, Repr

/-- cec-rs CecCommand, reduced to the opcode the program matches on. -/
structure CecCommand where
  opcode : CecOpcode
deriving DecidableEq, Repr

/-- enum Event (backend module): what the native callbacks publish into
the event queue.  A key press carries its control code and duration in
milliseconds. -/
inductive Event where
  | KeyPress (keycode : Byte) (duration_ms : Nat)
  | Command (command : CecCommand)
  | LogMessage (message : CecLogMessage)
deriving DecidableEq, Repr

/-- The severity label main.rs lines 93-99 prints for a log message. -/
def logLevelLabel : CecLogLevel → String
  | .Error => "error"
  | .Warning => "warning"
  | .Notice => "notice"
  | .Traffic => "traffic"
  | .Debug => "debug"

/-- The stderr line the event-dispatch task prints for one event
(main.rs lines 90-104): log messages get a severity label, other events
print nothing. -/
def serveEventLine : Event → Option String
  | .LogMessage m => some (logLevelLabel m.level ++ ": cec: " ++ m.message)
  | _ => none

/-- The body of serve's event-dispatch task (main.rs lines 87-112) run
over a finite prefix of the event queue: every event is logged as above
and then dispatched to the dbus and wayland proxies, whose failures are
swallowed by log_result (line 106).  The loop body has no break, return
or error path, so the drain returns the stderr lines it printed together
with the number of events it dispatched to the proxies. -/
def serveEventDrain : List Event → List String × Nat
  | [] => ([], 0)
  | e :: rest =>
    let (lines, n) := serveEventDrain rest
    ((serveEventLine e).toList ++ lines, n + 1)

/-! ## Connection lifecycle (src/main.rs lines 136-241) -/

/-- fn cec_build (main.rs lines 225-241): open the connection; a
LibInitFailed or CallbackRegistrationFailed open error is returned to the
caller (serve propagates it with `?`, and main maps the error to
ExitCode::FAILURE); any other open error is logged with a
"waiting for adapter..." notice and yields no connection. -/
def cec_build (openResult : Except CecConnectionError CecConn) :
    Except CecConnectionError (Option CecConn) :=
  match openResult with
  | .ok cec => .ok (some cec)
  | .error .LibInitFailed => .error .LibInitFailed
  | .error .CallbackRegistrationFailed => .error .CallbackRegistrationFailed
  | .error _ => .ok none

/-- One iteration of serve's request loop (main.rs lines 136-161) applied
to the current optional connection: ResetDevice drops the old connection
and rebuilds through cec_build (openResult is what the native open would
return, the port only pins the native open to a device path); RemoveDevice
drops the connection; MetaCommand runs against the connection when one is
open (its failures are logged) and leaves the connection unchanged. -/
def serve_apply_request (openResult : Except CecConnectionError CecConn)
    (cec : Option CecConn) : Request → Except CecConnectionError (Option CecConn)
  | .ResetDevice _ => cec_build openResult
  | .RemoveDevice _ => .ok none
  | .MetaCommand _ => .ok cec

/-! ## systemd-logind backend (src/backend/dbus/systemd_logind/mod.rs) -/

/-- Proxy::event (systemd_logind/mod.rs lines 70-87): on a raw Standby
command Event the proxy releases the sleep inhibitor lock and asks logind
to suspend; every other event leaves the lock alone.  Input is whether
the lock is currently held; output is (lock held afterwards, suspend
requested). -/
def logind_proxy_event (lockHeld : Bool) (e : Event) : Bool × Bool :=
  match e with
  | .Command { opcode := .Standby } => (false, true)
  | _ => (lockHeld, false)

/-- One PrepareForSleep signal processed by the logind request stream
(systemd_logind/mod.rs lines 97-122): on sleep start the stream yields a
cooperative power-off only while the inhibitor lock is held; on sleep end
it yields a full connection reset and re-acquires the lock.  Input is the
signal's start argument and whether the lock is held; output is the
requests yielded and whether the lock is held afterwards. -/
def prepare_for_sleep_step (lockHeld : Bool) (start : Bool) : List Request × Bool :=
  match start with
  | true =>
    (if lockHeld then [.MetaCommand (.Power (.Off true))] else [], lockHeld)
  | false => ([.ResetDevice none], true)

/-! ## udev hotplug backend (src/backend/udev.rs) -/

/-- The udev event types the stream distinguishes; everything that is not
Add or Remove is collapsed into OtherEvent. -/
inductive EventType where
  | Add
  | Remove
  | OtherEvent
deriving DecidableEq, Repr

/-- The parent usb_device node's identifier attributes (raw attribute
strings; a missing attribute is none).  OsStr-to-str conversion is the
identity here since Lean strings are already unicode. -/
structure UsbParent where
  idVendor : Option String
  idProduct : Option String
deriving DecidableEq, Repr

/-- A kernel device event from the tty-filtered monitor: the parent
usb_device lookup's successful result (a lookup io error propagates as
the stream item's error and is outside this model), the event type and
the device node path. -/
structure UdevEvent where
  parent : Option UsbParent
  event_type : EventType
  devnode : String
deriving DecidableEq, Repr

/-- One hexadecimal digit as accepted by char::to_digit(16). -/
def hexDigit : Char → Option Nat := fun c =>
  if '0' ≤ c ∧ c ≤ '9' then some (c.toNat - '0'.toNat)
  else if 'a' ≤ c ∧ c ≤ 'f' then some (c.toNat - 'a'.toNat + 10)
  else if 'A' ≤ c ∧ c ≤ 'F' then some (c.toNat - 'A'.toNat + 10)
  else none

/-- Digit run of u16::from_str_radix(s, 16): at least one digit, all hex,
value below 2^16 (an overflow is an error). -/
def parseHexU16 (digits : List Char) : Option Nat :=
  if digits = [] then none
  else
    digits.foldl
      (fun acc c => do
        let a ← acc
        let d ← hexDigit c
        let v := a * 16 + d
        if v < 65536 then some v else none)
      (some 0)

/-- u16::from_str_radix(s, 16): an optional sign, then hex digits; a
minus sign is only accepted for the value zero. -/
def from_str_radix_16 (s : String) : Option Nat :=
  match s.toList with
  | [] => none
  | '+' :: rest => parseHexU16 rest
  | '-' :: rest => (parseHexU16 rest).bind fun v => if v = 0 then some 0 else none
  | l => parseHexU16 l

/-- Backend::parse_id (udev.rs lines 22-25). -/
def parse_id (id : Option String) : Option Nat :=
  id.bind from_str_radix_16

/-- Backend::CEC_VID (udev.rs line 18). -/
def CEC_VID : Nat := 0x2548

/-- Backend::CEC_PID (udev.rs line 19). -/
def CEC_PID : Nat := 0x1001

/-- Backend::CEC_PID2 (udev.rs line 20). -/
def CEC_PID2 : Nat := 0x1002

/-- fn map_event (udev.rs lines 58-86): parse the parent usb_device's
vendor and product ids and, when they match the Pulse-Eight identity,
map an Add event to ResetDevice(Some(devnode)) and a Remove event to
RemoveDevice(devnode); everything else maps to no Request. -/
def map_event (e : UdevEvent) : Option Request :=
  match e.parent.map (fun p => (parse_id p.idVendor, parse_id p.idProduct)) with
  | some (some v, some pid) =>
    if v = CEC_VID ∧ (pid = CEC_PID ∨ pid = CEC_PID2) then
      match e.event_type with
      | .Add => some (.ResetDevice (some e.devnode))
      | .Remove => some (.RemoveDevice e.devnode)
      | .OtherEvent => none
    else none
  | _ => none

/-- The udev adapter-identity match that selects an event in map_event. -/
def matchesCecAdapter (e : UdevEvent) : Prop :=
  ∃ p, e.parent = some p ∧ parse_id p.idVendor = some CEC_VID ∧
    (parse_id p.idProduct = some CEC_PID ∨ parse_id p.idProduct = some CEC_PID2)

instance (e : UdevEvent) : Decidable (matchesCecAdapter e) :=
  match h : e.parent with
  | none => .isFalse (by simp [matchesCecAdapter, h])
  | some p =>
    decidable_of_iff
      (parse_id p.idVendor = some CEC_VID ∧
        (parse_id p.idProduct = some CEC_PID ∨ parse_id p.idProduct = some CEC_PID2))
      (by simp [matchesCecAdapter, h])

/-! ## Unix-socket IPC backend (src/backend/unix_socket.rs lines 74-101) -/

/-- enum Error (unix_socket.rs lines 103-109), reduced to the decode
error; an OS-level recv error (lines 94-95) is outside the datagram-queue
model below. -/
inductive UnixSocketError where
  | InvalidCommand
deriving DecidableEq, Repr

/-- What recv leaves in the zeroed POSTCARD_MAX_SIZE buffer for one
datagram: the datagram's first POSTCARD_MAX_SIZE bytes, the rest of the
buffer still zero. -/
def recv_fill (d : List Byte) : List Byte :=
  d.take POSTCARD_MAX_SIZE ++ List.replicate (POSTCARD_MAX_SIZE - d.length) 0

/-- MetaCommandStream::poll_next (unix_socket.rs lines 81-101) drained
over a queue of arrived datagrams: a zero-length datagram ends the stream
(Ready(None)) with nothing decoded; any other datagram is decoded from
the full fixed-size buffer and yields either the command or an
InvalidCommand error for that one message, after which polling
continues with the next datagram. -/
def meta_command_stream : List (List Byte) → List (Except UnixSocketError MetaCommand)
  | [] => []
  | d :: rest =>
    if d.length = 0 then []
    else
      (match from_bytes (recv_fill d) with
        | some c => .ok c
        | none => .error .InvalidCommand) :: meta_command_stream rest

/-! ## mpris media aggregation (src/backend/dbus/mpris/mod.rs lines 260-283) -/

/-- The status-to-DeckInfo translation of poll_next_unpin_inner lines
263-271: a cached "Playing"/"Paused"/"Stopped" string maps to
Play/Still/Stop; any other string, a missing cached value or a cache
error all map to Stop.  The outer Option is the zbus call's success, the
inner one the cached property's presence. -/
def playback_status_deck_info : Option (Option String) → DeckInfo
  | some (some s) =>
    if s = "Playing" then .Play
    else if s = "Paused" then .Still
    else if s = "Stopped" then .Stop
    else .Stop
  | _ => .Stop

/-- The aggregate recomputation of lines 261-272: fold std::cmp::min over
the resolved players' translated statuses starting from Stop. -/
def aggregate_deck_info (statuses : List (Option (Option String))) : DeckInfo :=
  (statuses.map playback_status_deck_info).foldl DeckInfo.min .Stop

/-- The has_updates branch of Players::poll_next_unpin_inner lines
260-280: given the previous deck_info field and the resolved players'
cached statuses, recompute the aggregate and emit a
MetaCommand(DeckInfo) request exactly when it changed, updating the
field; otherwise emit nothing and keep the field. -/
def recompute_deck_info (prev : DeckInfo) (statuses : List (Option (Option String))) :
    Option Request × DeckInfo :=
  let deck_info := aggregate_deck_info statuses
  if prev ≠ deck_info then (some (.MetaCommand (.DeckInfo deck_info)), deck_info)
  else (none, prev)

/-! ## Concrete connections and events used as evaluation inputs -/

/-- An open connection whose audio status reports volume v and whose
native volume calls all succeed. -/
def volumeConn (v : Byte) : CecConn :=
  { audio_get_status := .ok v
    volume_up_result := .ok 0
    volume_down_result := .ok 0
    get_active_source := .Unknown
    get_logical_addresses := []
    send_standby_devices_result := .ok () }

/-- A connection whose active source (the TV, address 0) is another
device: our own registered address is the playback device 4. -/
def otherActiveSourceConn : CecConn :=
  { audio_get_status := .ok 0
    volume_up_result := .ok 0
    volume_down_result := .ok 0
    get_active_source := .Known 0
    get_logical_addresses := [4]
    send_standby_devices_result := .ok () }

/-- A hotplug Add event for a Pulse-Eight adapter (vendor 2548, product
1001, both hexadecimal attribute strings). -/
def cecAddEventExample : UdevEvent :=
  { parent := some { idVendor := some "2548", idProduct := some "1001" }
    event_type := .Add
    devnode := "/dev/ttyACM0" }

/-- A hotplug Add event whose product id does not match the adapter. -/
def otherUsbEventExample : UdevEvent :=
  { parent := some { idVendor := some "2548", idProduct := some "1003" }
    event_type := .Add
    devnode := "/dev/ttyACM0" }

/-! ## Helper lemmas -/

theorem deckMin_eq_or (a b : DeckInfo) : DeckInfo.min a b = a ∨ DeckInfo.min a b = b := by
  unfold DeckInfo.min
  split
  · exact Or.inl rfl
  · exact Or.inr rfl

theorem deckMin_toNat_le_left (a b : DeckInfo) : (DeckInfo.min a b).toNat ≤ a.toNat := by
  cases a <;> cases b <;> decide

theorem deckMin_toNat_le_right (a b : DeckInfo) : (DeckInfo.min a b).toNat ≤ b.toNat := by
  cases a <;> cases b <;> decide

theorem foldl_deckMin_eq_or (l : List DeckInfo) :
    ∀ init, l.foldl DeckInfo.min init = init ∨ l.foldl DeckInfo.min init ∈ l := by
  induction l with
  | nil => exact fun init => Or.inl rfl
  | cons a l ih =>
    intro init
    rcases ih (DeckInfo.min init a) with h | h
    · rcases deckMin_eq_or init a with h2 | h2
      · exact Or.inl (by rw [List.foldl_cons, h, h2])
      · refine Or.inr ?_
        rw [List.foldl_cons, h, h2]
        exact List.mem_cons_self a l
    · exact Or.inr (List.mem_cons_of_mem a h)

theorem foldl_deckMin_le_init (l : List DeckInfo) :
    ∀ init, (l.foldl DeckInfo.min init).toNat ≤ init.toNat := by
  induction l with
  | nil => exact fun init => Nat.le_refl _
  | cons a l ih =>
    intro init
    exact Nat.le_trans (ih (DeckInfo.min init a)) (deckMin_toNat_le_left init a)

theorem foldl_deckMin_le_mem (l : List DeckInfo) :
    ∀ init d, d ∈ l → (l.foldl DeckInfo.min init).toNat ≤ d.toNat := by
  induction l with
  | nil =>
    intro init d h
    cases h
  | cons a l ih =>
    intro init d h
    rcases List.mem_cons.mp h with rfl | h
    · exact Nat.le_trans (foldl_deckMin_le_init l (DeckInfo.min init d))
        (deckMin_toNat_le_right init d)
    · exact ih (DeckInfo.min init a) d h

theorem matchesCecAdapter_some_iff (p : UsbParent) (et : EventType) (dn : String) :
    matchesCecAdapter ⟨some p, et, dn⟩ ↔
      (parse_id p.idVendor = some CEC_VID ∧
        (parse_id p.idProduct = some CEC_PID ∨ parse_id p.idProduct = some CEC_PID2)) := by
  simp [matchesCecAdapter]

/-! ## Claim theorems -/

set_option maxRecDepth 8192

/-- C1.  The claim says Volume::Set issues exactly the signed difference
between target and current audio-status level as native steps: 4 Up
steps for target 7 from level 3, and 3 Down steps for target 2 from
level 5.  The Up direction does behave that way, but the Down branch of
volume_set passes the negative i8 delta through an `as u8` cast
(meta_command.rs line 220), so target 2 from current level 5 issues
(-3 as u8) = 253 native Down steps - the code contradicts the spec's
clear intent, a sign-handling slip. -/
theorem volume_set_down_cast_overflow :
    (volume_set (volumeConn 5) 2).2.count NativeCall.volumeDown = 253 ∧
    (volume_set (volumeConn 5) 2).1 = .ok () ∧
    (volume_set (volumeConn 3) 7).2.count NativeCall.volumeUp = 4 :=
  ⟨rfl, rfl, rfl⟩

/-- C2 counterexample.  The claim says an error-severity log message is
surfaced as a CEC-layer error that terminates the process.  Draining the
queue holding an error-severity log message followed by a debug one shows
the loop printing both lines and dispatching both events (count 2): the
error-severity message neither surfaces an error nor stops processing,
contradicting the claim at this concrete input. -/
theorem serve_error_log_only_logged_cex :
    serveEventDrain
        [Event.LogMessage ⟨CecLogLevel.Error, "x"⟩,
          Event.LogMessage ⟨CecLogLevel.Debug, "y"⟩] =
      (["error: cec: x", "debug: cec: y"], 2) := rfl

/-- C2 amended.  While connected, every Event pulled from the queue is
dispatched; a log-message Event of any severity, error included, is only
written to stderr with its severity label and processing continues - the
loop terminates the process for no severity. -/
theorem serve_event_drain_logs_and_continues (events : List Event) :
    serveEventDrain events = (events.filterMap serveEventLine, events.length) := by
  induction events with
  | nil => rfl
  | cons e rest ih => cases h : serveEventLine e <;> simp [serveEventDrain, ih, h]

/-- C3.  Every MetaCommand value fits in the POSTCARD_MAX_SIZE buffer,
and decoding the buffer that serializing it fills (its trailing bytes
still zero) yields the identical value. -/
theorem metaCommand_postcard_roundtrip (c : MetaCommand) :
    (MetaCommand.serialize c).length ≤ POSTCARD_MAX_SIZE ∧
      from_bytes (recv_fill (MetaCommand.serialize c)) = some c := by
  rcases c with a | p | v | m | d
  · rcases a with c | _
    · cases c <;> exact ⟨by decide, rfl⟩
    · exact ⟨by decide, rfl⟩
  · rcases p with _ | c
    · exact ⟨by decide, rfl⟩
    · cases c <;> exact ⟨by decide, rfl⟩
  · rcases v with s | s | s <;>
      exact ⟨by simp [MetaCommand.serialize, Volume.serialize, POSTCARD_MAX_SIZE], rfl⟩
  · rcases m with _ | mu
    · exact ⟨by decide, rfl⟩
    · cases mu <;> exact ⟨by decide, rfl⟩
  · cases d <;> exact ⟨by decide, rfl⟩

/-- C4.  The recomputed aggregate DeckInfo is the minimum of the resolved
players' translated statuses under Play < Still < Stop, with non-Playing/
Paused/Stopped, missing and unresolved statuses counted as Stop (the
claim's examples evaluate as stated), and a MetaCommand(DeckInfo) request
is emitted exactly when the aggregate differs from the previous one. -/
theorem mpris_deck_info_aggregation (prev : DeckInfo)
    (statuses : List (Option (Option String))) :
    (aggregate_deck_info [some (some "Playing"), some (some "Paused")] = .Play ∧
      aggregate_deck_info [some (some "Paused"), some (some "Stopped")] = .Still ∧
      aggregate_deck_info [some (some "Stopped")] = .Stop ∧
      aggregate_deck_info [] = .Stop) ∧
    (DeckInfo.Play.toNat < DeckInfo.Still.toNat ∧
      DeckInfo.Still.toNat < DeckInfo.Stop.toNat) ∧
    (aggregate_deck_info statuses = .Stop ∨
      aggregate_deck_info statuses ∈ statuses.map playback_status_deck_info) ∧
    (∀ d, d ∈ statuses.map playback_status_deck_info →
      (aggregate_deck_info statuses).toNat ≤ d.toNat) ∧
    ((recompute_deck_info prev statuses).1 =
        some (.MetaCommand (.DeckInfo (aggregate_deck_info statuses))) ↔
      aggregate_deck_info statuses ≠ prev) ∧
    ((recompute_deck_info prev statuses).1 = none ↔
      aggregate_deck_info statuses = prev) ∧
    (recompute_deck_info prev statuses).2 = aggregate_deck_info statuses := by
  refine ⟨⟨by decide, by decide, by decide, by decide⟩, ⟨by decide, by decide⟩,
    foldl_deckMin_eq_or _ DeckInfo.Stop,
    fun d h => foldl_deckMin_le_mem _ DeckInfo.Stop d h, ?_, ?_, ?_⟩ <;>
    by_cases h : prev = aggregate_deck_info statuses
  case pos => simp [recompute_deck_info, h]
  case neg => simp [recompute_deck_info, h, Ne.symm h]
  case pos => simp [recompute_deck_info, h]
  case neg => simp [recompute_deck_info, h, Ne.symm h]
  case pos => simp [recompute_deck_info, h]
  case neg => simp [recompute_deck_info, h, Ne.symm h]

/-- C5.  A sleep-start signal yields the cooperative power-off request
exactly when the inhibitor lock is held and yields nothing otherwise,
leaving the lock state alone; a sleep-end signal always yields
ResetDevice(None) and leaves the lock held again.  After the proxy
consumes the lock on a raw Standby command, a following sleep-start
yields nothing. -/
theorem logind_prepare_for_sleep_behaviour (held : Bool) :
    ((prepare_for_sleep_step held true).1 =
        [Request.MetaCommand (MetaCommand.Power (Power.Off true))] ↔ held = true) ∧
    ((prepare_for_sleep_step held true).1 = [] ↔ held = false) ∧
    (prepare_for_sleep_step held true).2 = held ∧
    (prepare_for_sleep_step held false).1 = [Request.ResetDevice none] ∧
    (prepare_for_sleep_step held false).2 = true ∧
    (prepare_for_sleep_step
        (logind_proxy_event held (Event.Command ⟨CecOpcode.Standby⟩)).1 true).1 = [] := by
  cases held <;> exact ⟨by decide, by decide, rfl, rfl, rfl, rfl⟩

/-- C6.  A hotplug event whose parent usb_device carries the adapter
identity (vendor 0x2548, product 0x1001 or 0x1002) maps to exactly one
ResetDevice(Some(devnode)) on Add and exactly one RemoveDevice(devnode)
on Remove, and to nothing on any other event type; an event without that
identity maps to nothing. -/
theorem udev_map_event_filters (e : UdevEvent) :
    (matchesCecAdapter e →
      (e.event_type = .Add → map_event e = some (.ResetDevice (some e.devnode))) ∧
      (e.event_type = .Remove → map_event e = some (.RemoveDevice e.devnode)) ∧
      (e.event_type = .OtherEvent → map_event e = none)) ∧
    (¬ matchesCecAdapter e → map_event e = none) := by
  rcases e with ⟨parent, et, dn⟩
  cases parent with
  | none =>
    have hnm : ¬ matchesCecAdapter ⟨none, et, dn⟩ := by
      rintro ⟨p, hp, -⟩
      cases hp
    exact ⟨fun hm => absurd hm hnm, fun _ => rfl⟩
  | some p =>
    rw [and_congr (imp_congr_left (matchesCecAdapter_some_iff p et dn))
      (imp_congr_left (not_congr (matchesCecAdapter_some_iff p et dn)))]
    by_cases hm : parse_id p.idVendor = some CEC_VID ∧
      (parse_id p.idProduct = some CEC_PID ∨ parse_id p.idProduct = some CEC_PID2)
    · obtain ⟨h1, h2⟩ := hm
      constructor
      · intro _
        refine ⟨fun het => ?_, fun het => ?_, fun het => ?_⟩ <;> subst het <;>
          rcases h2 with h2 | h2 <;> simp [map_event, h1, h2, CEC_VID, CEC_PID, CEC_PID2]
      · intro hnm
        exact absurd ⟨h1, h2⟩ hnm
    · refine ⟨fun hm2 => absurd hm2 hm, fun _ => ?_⟩
      cases hV : parse_id p.idVendor with
      | none => simp [map_event, hV]
      | some v =>
        cases hP : parse_id p.idProduct with
        | none => simp [map_event, hV, hP]
        | some pid =>
          have hcond : ¬ (v = CEC_VID ∧ (pid = CEC_PID ∨ pid = CEC_PID2)) := by
            rintro ⟨ha, hb⟩
            apply hm
            constructor
            · rw [hV, ha]
            · rcases hb with hb | hb
              · exact Or.inl (by rw [hP, hb])
              · exact Or.inr (by rw [hP, hb])
          simp [map_event, hV, hP, hcond]

/-- C6 witness: the matching Add event maps to the reset request and the
mismatched one maps to nothing, evaluated at concrete events. -/
theorem udev_map_event_filters_witness :
    map_event cecAddEventExample = some (.ResetDevice (some "/dev/ttyACM0")) ∧
    map_event otherUsbEventExample = none :=
  ⟨((udev_map_event_filters cecAddEventExample).1 (by decide)).1 rfl,
    (udev_map_event_filters otherUsbEventExample).2 (by decide)⟩

/-- C7.  Cooperative power-off sends standby if and only if the
connection's own registered logical addresses contain the current active
source; whenever they do not (including an unknown or unregistered
active source), no native call is made and the operation returns Ok. -/
theorem power_off_cooperative_standby_iff (cec : CecConn) :
    (NativeCall.sendStandbyDevices ∈ (power_off_cooperative cec).2 ↔
      (∃ a : Fin 15, cec.get_active_source = .Known a ∧
        a ∈ cec.get_logical_addresses)) ∧
    ((¬ ∃ a : Fin 15, cec.get_active_source = .Known a ∧
        a ∈ cec.get_logical_addresses) →
      power_off_cooperative cec = (.ok (), [])) := by
  cases hsrc : cec.get_active_source with
  | Unknown =>
    simp [power_off_cooperative, KnownAndRegisteredCecLogicalAddress.new, hsrc]
  | Unregistered =>
    simp [power_off_cooperative, KnownAndRegisteredCecLogicalAddress.new, hsrc]
  | Known a =>
    by_cases hmem : a ∈ cec.get_logical_addresses
    · cases hs : cec.send_standby_devices_result <;>
        simp [power_off_cooperative, KnownAndRegisteredCecLogicalAddress.new, hsrc,
          hmem, power_off, hs]
    · simp [power_off_cooperative, KnownAndRegisteredCecLogicalAddress.new, hsrc, hmem]

/-- C7 witness: with the TV (address 0) as active source and only the
playback address 4 registered as our own, no standby is issued and the
operation succeeds. -/
theorem power_off_cooperative_standby_iff_witness :
    power_off_cooperative otherActiveSourceConn = (.ok (), []) :=
  (power_off_cooperative_standby_iff otherActiveSourceConn).2 (by decide)

/-- C8.  Opening a connection: LibInitFailed and
CallbackRegistrationFailed are returned to serve (which propagates them,
terminating the process), while NoAdapterFound, AdapterOpenFailed and
TransmitFailed yield Ok(None) - no error, no connection - and a
ResetDevice request behaves accordingly. -/
theorem serve_open_failure_classes (e : CecConnectionError) (cec : Option CecConn)
    (port : Option String) :
    cec_build (Except.error CecConnectionError.LibInitFailed) =
      .error .LibInitFailed ∧
    cec_build (Except.error CecConnectionError.CallbackRegistrationFailed) =
      .error .CallbackRegistrationFailed ∧
    cec_build (Except.error CecConnectionError.NoAdapterFound) = .ok none ∧
    cec_build (Except.error CecConnectionError.AdapterOpenFailed) = .ok none ∧
    cec_build (Except.error CecConnectionError.TransmitFailed) = .ok none ∧
    serve_apply_request (.error e) cec (.ResetDevice port) =
      (if e = .LibInitFailed ∨ e = .CallbackRegistrationFailed then .error e
        else .ok none) := by
  refine ⟨rfl, rfl, rfl, rfl, rfl, ?_⟩
  cases e <;> simp [serve_apply_request, cec_build]

/-- C9.  A non-empty datagram that fails to decode yields exactly one
InvalidCommand error item, and the stream goes on to the datagrams after
it unchanged. -/
theorem unix_socket_decode_error_isolated (d : List Byte) (rest : List (List Byte))
    (hne : d ≠ []) (hbad : from_bytes (recv_fill d) = none) :
    meta_command_stream (d :: rest) =
      .error UnixSocketError.InvalidCommand :: meta_command_stream rest := by
  have hlen : ¬ d.length = 0 := by
    simpa [List.length_eq_zero] using hne
  simp [meta_command_stream, hlen, hbad]

/-- C9 witness: the malformed one-byte datagram 5 (an out-of-range
discriminant) yields one error item and the valid DeckInfo(Stop)
datagram after it still decodes. -/
theorem unix_socket_decode_error_isolated_witness :
    meta_command_stream [[5], [4, 2]] =
      [.error UnixSocketError.InvalidCommand, .ok (.DeckInfo .Stop)] := by
  rw [unix_socket_decode_error_isolated [5] [[4, 2]] (by decide) (by decide)]
  rfl

/-- C10.  A zero-length datagram ends the IPC stream: whatever datagrams
are queued behind it, the stream yields nothing further and nothing is
decoded. -/
theorem unix_socket_empty_datagram_ends_stream (rest : List (List Byte)) :
    meta_command_stream ([] :: rest) = [] := rfl

end CecSync
